import Mathlib

/-!
Verification development for the dataset-linking refinement module
(`dl/refine.py`).  The Python functions are shallowly embedded as Lean
definitions over an explicit data model of the Croissant-like profile
documents.  Python strings are Lean `String`s; Python `None`-able values
are `Option`s; Python dicts that are consulted key-by-key become
structures, and dicts used as insertion-ordered maps become association
lists with explicit update helpers mirroring the dict operations used by
the source.
-/

/-- Python `s.lower()` (per-character lowercasing). -/
def pyLower (s : String) : String := String.mk (s.data.map Char.toLower)

/-- Python `s.strip()`: drop leading and trailing whitespace. -/
def pyStrip (s : String) : String :=
  String.mk (((s.data.dropWhile Char.isWhitespace).reverse.dropWhile Char.isWhitespace).reverse)

/-- Python `pat in s` (substring containment). -/
def pyContains (s pat : String) : Bool := decide (pat.data <:+: s.data)

/-- Python `s.startswith(pre)`. -/
def pyStartsWith (s pre : String) : Bool := decide (pre.data <+: s.data)

/-- Python `s.endswith(suf)`. -/
def pyEndsWith (s suf : String) : Bool := decide (suf.data <:+ s.data)

/-- Python `a or b` where `a` is an optional string and the fallback is an
optional string: an absent or empty string is falsy. -/
def pyStrOr (a : Option String) (b : Option String) : Option String :=
  match a with
  | some s => if s = "" then b else some s
  | none => b

/-- Python `a or b` where the fallback is a plain string. -/
def pyStrOrStr (a : Option String) (b : String) : String :=
  match a with
  | some s => if s = "" then b else s
  | none => b

/-- Codepoint-lexicographic comparison of character lists (the order by
which Python sorts strings). -/
def strLeData : List Char → List Char → Bool
  | [], _ => true
  | _ :: _, [] => false
  | a :: as, b :: bs =>
    if a.toNat < b.toNat then true
    else if b.toNat < a.toNat then false
    else strLeData as bs

/-- Codepoint-lexicographic comparison of strings. -/
def strLeB (a b : String) : Bool := strLeData a.data b.data

/-- Python `sorted(...)` on strings (insertion sort by the codepoint
order). -/
def sortStrs (l : List String) : List String :=
  List.insertionSort (fun a b : String => strLeB a b = true) l

/-- Python `" ".join(notes)`. -/
def joinSpace : List String → String
  | [] => ""
  | [s] => s
  | s :: rest => s ++ (" ") ++ joinSpace rest

/-- Lookup in an insertion-ordered association list (Python `d.get(k)`). -/
def lookupList {α : Type} (k : String) : List (String × α) → Option α
  | [] => none
  | (k2, v) :: rest => if k2 = k then some v else lookupList k rest

/-- Python `k in d` for an association-list dict. -/
def containsKey {α : Type} (k : String) (l : List (String × α)) : Bool :=
  (lookupList k l).isSome

/-- Python `d[k] = v`: overwrite in place, else append at the end. -/
def upsert {α : Type} (k : String) (v : α) : List (String × α) → List (String × α)
  | [] => [(k, v)]
  | (k2, v2) :: rest => if k2 = k then (k, v) :: rest else (k2, v2) :: upsert k v rest

/-- Python `d[k].append(x)` for a dict of lists (no-op if the key is absent;
every call site guards on key membership, as the source does). -/
def appendAt {α : Type} (k : String) (d : α) : List (String × List α) → List (String × List α)
  | [] => []
  | (k2, vs) :: rest =>
    if k2 = k then (k2, vs ++ [d]) :: rest else (k2, vs) :: appendAt k d rest

/-- Python `d.setdefault(k, []).extend(new)` (and `.update(new)` for sets,
whose members are later read through `sorted(set(...))`). -/
def extendAt {α : Type} (k : String) (new : List α) :
    List (String × List α) → List (String × List α)
  | [] => [(k, new)]
  | (k2, vs) :: rest =>
    if k2 = k then (k2, vs ++ new) :: rest else (k2, vs) :: extendAt k new rest

/-- Python `sorted({str(s).strip().lower() for s in l if str(s).strip()})`. -/
def normSet (l : List String) : List String :=
  sortStrs (((l.filter fun s => pyStrip s != "").map fun s => pyLower (pyStrip s)).dedup)

/-- Python `sorted(s1 & s2)` for sets represented by their member lists. -/
def interAll (l1 l2 : List String) : List String :=
  sortStrs ((l1.filter fun x => l2.contains x).dedup)

/-- Python `sorted(s1 & s2) if s1 and s2 else []`. -/
def interSorted (l1 l2 : List String) : List String :=
  if l1.isEmpty || l2.isEmpty then [] else interAll l1 l2

/-- A JSON value that may be a string, a sequence of strings, or absent
(covers the `keywords` and `sample` attributes). -/
inductive StrOrList where
  | nullv : StrOrList
  | strv : String → StrOrList
  | listv : List String → StrOrList
deriving DecidableEq

/-- Python `xs = field.get(key) or []; if isinstance(xs, str): xs = [xs]`. -/
def StrOrList.toList : StrOrList → List String
  | .nullv => []
  | .strv s => if s = "" then [] else [s]
  | .listv l => l

/-- A JSON object used as a back-reference (`source.fileSet` /
`source.fileObject`): `id` is the value at key `"@id"` (outer `none` = key
absent, inner `none` = null value), `extra` records whether the object has
any other keys (this decides Python truthiness of the object). -/
structure RefObj where
  id : Option (Option String)
  extra : Bool
deriving DecidableEq

/-- Python truthiness of the reference object (non-empty dict). -/
def RefObj.truthy (r : RefObj) : Bool := r.id.isSome || r.extra

/-- Python `ref.get("@id")`. -/
def RefObj.getId (r : RefObj) : Option String := r.id.getD none

/-- The empty dict `{}`. -/
def emptyRef : RefObj := { id := none, extra := false }

/-- Python `a or b` where `a` is an optional reference object. -/
def refOrElse (a : Option RefObj) (b : RefObj) : RefObj :=
  match a with
  | some r => if r.truthy then r else b
  | none => b

/-- The `source` attribute of a field: optional `fileSet` / `fileObject`
back-references (each `none` when the key is absent or null). -/
structure FieldSource where
  fileSet : Option RefObj
  fileObject : Option RefObj
deriving DecidableEq

/-- One entry of a profile's `distribution` list. -/
structure DistEntry where
  atId : Option String
  atType : Option String
  name : Option String
  encodingFormat : Option String
  includes : Option String
  contentUrl : Option String
deriving DecidableEq

/-- One entry of a record set's `field` list. -/
structure RSField where
  atType : Option String
  name : Option String
  source : Option FieldSource
  keywords : StrOrList
  sample : StrOrList
deriving DecidableEq

/-- One entry of a profile's `recordSet` list (only `field` is consulted). -/
structure RecordSet where
  field : Option (List RSField)
deriving DecidableEq

/-- The raw input document (only `distribution` and `recordSet` are
consulted by the refinement core). -/
structure DataProfile where
  distribution : Option (List DistEntry)
  recordSet : Option (List RecordSet)
deriving DecidableEq

/-- The space-joined, lowercased concatenation of `includes`, `contentUrl`,
`name` built by `_guess_format_from_paths`. -/
def joinedPaths (dist : DistEntry) : String :=
  pyLower (dist.includes.getD ("")) ++ (" ") ++
    pyLower (dist.contentUrl.getD ("")) ++ (" ") ++ pyLower (dist.name.getD (""))

/-- Embedding of `_guess_format_from_paths` (refine.py lines 55-82). -/
def guess_format_from_paths (dist : DistEntry) : Option String :=
  let joined := joinedPaths dist
  if pyContains joined (".csv") then some ("text/csv")
  else if pyContains joined (".txt") then some ("text/plain")
  else if pyContains joined (".sql") then some ("application/sql")
  else if pyContains joined (".pdf") then some ("application/pdf")
  else if pyContains joined (".xls") || pyContains joined (".xlsx") then
    some ("application/vnd.ms-excel")
  else none

/-- One annotated item of the distribution summary. -/
structure DistItem where
  id : Option String
  name : Option String
  kind : String
  croissant_type : String
  encodingFormat : Option String
  includes : Option String
  contentUrl : Option String
deriving DecidableEq

/-- Body of the per-entry loop of `analyze_distribution` (refine.py 94-115). -/
def analyzeDistItem (dist : DistEntry) : DistItem :=
  let cr_type := pyStrip (dist.atType.getD (""))
  let encoding := pyStrOr dist.encodingFormat (guess_format_from_paths dist)
  let kind :=
    if pyEndsWith cr_type ("FileSet") then ("folder")
    else if pyEndsWith cr_type ("FileObject") then ("file")
    else ("other")
  { id := dist.atId, name := dist.name, kind := kind, croissant_type := cr_type,
    encodingFormat := encoding,
    includes := if kind == "folder" then dist.includes else none,
    contentUrl := dist.contentUrl }

/-- The structured summary returned by `analyze_distribution`. -/
structure DistSummary where
  total : Nat
  folders : Nat
  files : Nat
  other : Nat
  items : List DistItem
deriving DecidableEq

/-- Embedding of `analyze_distribution` (refine.py lines 85-123). -/
def analyze_distribution (profile_data : DataProfile) : DistSummary :=
  let raw := profile_data.distribution.getD []
  let items := raw.map analyzeDistItem
  { total := items.length,
    folders := items.countP fun i => i.kind == "folder",
    files := items.countP fun i => i.kind == "file",
    other := items.countP fun i => i.kind == "other",
    items := items }

/-- The four-boolean accumulation loop of `infer_content_type`
(refine.py lines 150-162); the state is (has_text, has_csv, has_sql,
has_other). -/
def contentFlags : List DistItem → Bool × Bool × Bool × Bool → Bool × Bool × Bool × Bool
  | [], flags => flags
  | it :: rest, (has_text, has_csv, has_sql, has_other) =>
    let encoding := pyLower (it.encodingFormat.getD (""))
    if encoding = "" then contentFlags rest (has_text, has_csv, has_sql, true)
    else if pyStartsWith encoding ("text/") && encoding != "text/csv" then
      contentFlags rest (true, has_csv, has_sql, has_other)
    else if encoding == "text/csv" || pyContains encoding ("excel") then
      contentFlags rest (has_text, true, has_sql, has_other)
    else if pyContains encoding ("sql") then
      contentFlags rest (has_text, has_csv, true, has_other)
    else contentFlags rest (has_text, has_csv, has_sql, true)

/-- Embedding of `infer_content_type` (refine.py lines 129-173). -/
def infer_content_type (profile_data : DataProfile) : String :=
  let summary := analyze_distribution profile_data
  let items := summary.items
  if items.isEmpty then ("UNKNOWN")
  else
    match contentFlags items (false, false, false, false) with
    | (has_text, has_csv, has_sql, has_other) =>
      if has_text && !has_csv && !has_sql && !has_other then ("TEXTUAL")
      else if has_csv && !has_text && !has_sql && !has_other then ("CSV")
      else if has_sql then ("SQL")
      else ("MIXED")

/-- One value of the `file_sets` mapping of the text structure. -/
structure TxtFileSet where
  id : String
  name : Option String
  includes : Option String
  contentUrl : Option String
deriving DecidableEq

/-- One document record of `documents_by_file_set`. -/
structure TxtDoc where
  name : String
  name_norm : String
  keywords : List String
deriving DecidableEq

/-- The structure returned by `extract_txt_documents`. -/
structure TextStructure where
  file_sets : List (String × TxtFileSet)
  documents_by_file_set : List (String × List TxtDoc)
  all_document_names : List String
  all_document_keywords : List String
deriving DecidableEq

/-- Distribution scan of `extract_txt_documents` (refine.py lines 201-219):
collect text/plain FileSets keyed by their `@id`. -/
def txtScanDist : List DistEntry → List (String × TxtFileSet) → List (String × TxtFileSet)
  | [], txt_sets => txt_sets
  | dist :: rest, txt_sets =>
    let cr_type := pyStrip (dist.atType.getD (""))
    if !pyEndsWith cr_type ("FileSet") then txtScanDist rest txt_sets
    else
      let encoding := pyLower ((pyStrOr dist.encodingFormat (guess_format_from_paths dist)).getD (""))
      if encoding != "text/plain" then txtScanDist rest txt_sets
      else
        match dist.atId with
        | some fs_id =>
          if fs_id = "" then txtScanDist rest txt_sets
          else
            txtScanDist rest (upsert fs_id
              { id := fs_id, name := dist.name, includes := dist.includes,
                contentUrl := dist.contentUrl } txt_sets)
        | none => txtScanDist rest txt_sets

/-- Body of the per-field loop of `extract_txt_documents`
(refine.py lines 225-256). -/
def txtProcessField (txt_sets : List (String × TxtFileSet))
    (acc : List (String × List TxtDoc)) (f : RSField) : List (String × List TxtDoc) :=
  if !pyEndsWith (f.atType.getD ("")) ("Document") then acc
  else
    let source := f.source.getD { fileSet := none, fileObject := none }
    let fsref := refOrElse source.fileSet emptyRef
    match fsref.getId with
    | none => acc
    | some fs_id =>
      if containsKey fs_id txt_sets then
        let doc_name := pyStrip (f.name.getD (""))
        if doc_name = "" then acc
        else
          appendAt fs_id
            { name := doc_name, name_norm := pyLower doc_name,
              keywords := normSet f.keywords.toList } acc
      else acc

/-- Collect the `name_norm` values of all documents across the mapping. -/
def collectNames : List (String × List TxtDoc) → List String
  | [] => []
  | (_, docs) :: rest => (docs.map fun d => d.name_norm) ++ collectNames rest

/-- Concatenate the keyword lists of a document list. -/
def docsKeywords : List TxtDoc → List String
  | [] => []
  | d :: ds => d.keywords ++ docsKeywords ds

/-- Collect the keywords of all documents across the mapping. -/
def collectKeywords : List (String × List TxtDoc) → List String
  | [] => []
  | (_, docs) :: rest => docsKeywords docs ++ collectKeywords rest

/-- Embedding of `extract_txt_documents` (refine.py lines 179-281). -/
def extract_txt_documents (profile_data : DataProfile) : TextStructure :=
  let txt_sets := txtScanDist (profile_data.distribution.getD []) []
  let docs0 := txt_sets.map fun kv => (kv.1, ([] : List TxtDoc))
  let documents_by_fs := (profile_data.recordSet.getD []).foldl
    (fun acc recordset => (recordset.field.getD []).foldl (txtProcessField txt_sets) acc) docs0
  let all_names := sortStrs (((collectNames documents_by_fs).filter fun n => n != "").dedup)
  let all_keywords := sortStrs ((collectKeywords documents_by_fs).dedup)
  { file_sets := txt_sets, documents_by_file_set := documents_by_fs,
    all_document_names := all_names, all_document_keywords := all_keywords }

/-- One table of the CSV structure. -/
structure CsvTable where
  id : String
  name : String
  columns : List (String × List String)
deriving DecidableEq

/-- The structure returned by `extract_csv_tables_with_samples`. -/
structure CsvStructure where
  tables : List CsvTable
  all_columns : List String
deriving DecidableEq

/-- Distribution scan of `extract_csv_tables_with_samples`
(refine.py lines 292-303): collect csv/excel sources keyed by `@id`. -/
def csvScanDist : List DistEntry → List (String × CsvTable) → List (String × CsvTable)
  | [], csv_sources => csv_sources
  | dist :: rest, csv_sources =>
    let encoding := pyLower ((pyStrOr dist.encodingFormat (guess_format_from_paths dist)).getD (""))
    if encoding == "text/csv" || pyContains encoding ("excel") then
      match dist.atId with
      | some src_id =>
        if src_id = "" then csvScanDist rest csv_sources
        else
          csvScanDist rest (upsert src_id
            { id := src_id, name := pyStrOrStr dist.name src_id, columns := [] } csv_sources)
      | none => csvScanDist rest csv_sources
    else csvScanDist rest csv_sources

/-- Python `csv_sources[k]["columns"].setdefault(col, []).extend(samples)`. -/
def extendColumns (k col : String) (samples : List String) :
    List (String × CsvTable) → List (String × CsvTable)
  | [] => []
  | (k2, t) :: rest =>
    if k2 = k then (k2, { t with columns := extendAt col samples t.columns }) :: rest
    else (k2, t) :: extendColumns k col samples rest

/-- Body of the per-field loop of `extract_csv_tables_with_samples`
(refine.py lines 309-331). -/
def csvProcessField (acc : List (String × CsvTable)) (f : RSField) :
    List (String × CsvTable) :=
  let source := f.source.getD { fileSet := none, fileObject := none }
  let ref := refOrElse source.fileSet (refOrElse source.fileObject emptyRef)
  match ref.getId with
  | none => acc
  | some src_id =>
    if containsKey src_id acc then
      let col := pyLower (pyStrip (f.name.getD ("")))
      if col = "" then acc
      else extendColumns src_id col (normSet f.sample.toList) acc
    else acc

/-- Collect the column-name keys of all tables. -/
def collectColumns : List CsvTable → List String
  | [] => []
  | t :: rest => (t.columns.map fun cv => cv.1) ++ collectColumns rest

/-- Embedding of `extract_csv_tables_with_samples` (refine.py lines 284-344). -/
def extract_csv_tables_with_samples (profile_data : DataProfile) : CsvStructure :=
  let csv_sources := csvScanDist (profile_data.distribution.getD []) []
  if csv_sources.isEmpty then { tables := [], all_columns := [] }
  else
    let csv_sources := (profile_data.recordSet.getD []).foldl
      (fun acc recordset => (recordset.field.getD []).foldl csvProcessField acc) csv_sources
    let tables := csv_sources.map fun kv =>
      { kv.2 with columns := kv.2.columns.map fun cv => (cv.1, sortStrs cv.2.dedup) }
    let all_columns := sortStrs ((collectColumns tables).dedup)
    { tables := tables, all_columns := all_columns }

/-- One record of `per_document_keyword_overlap`. -/
structure DocOverlap where
  document_name : String
  common_keywords : List String
  dataset1_keywords : List String
  dataset2_keywords : List String
deriving DecidableEq

/-- The result of `compare_txt_files`. -/
structure TxtComparison where
  dataset1_document_names : List String
  dataset2_document_names : List String
  common_document_names : List String
  dataset1_document_keywords : List String
  dataset2_document_keywords : List String
  common_document_keywords : List String
  per_document_keyword_overlap : List DocOverlap
deriving DecidableEq

/-- Inner loop of `_name_to_keywords` (refine.py lines 368-373): merge each
document's keywords into the name-keyed mapping. -/
def ntkDocs : List TxtDoc → List (String × List String) → List (String × List String)
  | [], out => out
  | d :: ds, out =>
    if d.name_norm = "" then ntkDocs ds out
    else ntkDocs ds (extendAt d.name_norm d.keywords out)

/-- Embedding of `_name_to_keywords` (refine.py lines 365-374). -/
def nameToKeywords : List (String × List TxtDoc) → List (String × List String) →
    List (String × List String)
  | [], out => out
  | (_, docs) :: rest, out => nameToKeywords rest (ntkDocs docs out)

/-- Embedding of `compare_txt_files` (refine.py lines 351-400). -/
def compare_txt_files (txt1 txt2 : TextStructure) : TxtComparison :=
  let names1 := txt1.all_document_names
  let names2 := txt2.all_document_names
  let common_names := interSorted names1 names2
  let kw1 := txt1.all_document_keywords
  let kw2 := txt2.all_document_keywords
  let common_kw := interSorted kw1 kw2
  let map1 := nameToKeywords txt1.documents_by_file_set []
  let map2 := nameToKeywords txt2.documents_by_file_set []
  let per_doc := common_names.map fun n =>
    let k1 := (lookupList n map1).getD []
    let k2 := (lookupList n map2).getD []
    { document_name := n, common_keywords := interAll k1 k2,
      dataset1_keywords := sortStrs k1.dedup, dataset2_keywords := sortStrs k2.dedup }
  { dataset1_document_names := sortStrs names1.dedup,
    dataset2_document_names := sortStrs names2.dedup,
    common_document_names := common_names,
    dataset1_document_keywords := sortStrs kw1.dedup,
    dataset2_document_keywords := sortStrs kw2.dedup,
    common_document_keywords := common_kw,
    per_document_keyword_overlap := per_doc }

/-- One record of `per_column_sample_overlap`. -/
structure ColOverlap where
  column : String
  dataset1_samples : List String
  dataset2_samples : List String
  common_samples : List String
deriving DecidableEq

/-- The result of `compare_csv_schemas_with_samples`. -/
structure CsvComparison where
  dataset1_columns : List String
  dataset2_columns : List String
  common_columns : List String
  per_column_sample_overlap : List ColOverlap
deriving DecidableEq

/-- Inner loop of `_build_sample_map` (refine.py lines 411-413). -/
def sampleMapCols : List (String × List String) → List (String × List String) →
    List (String × List String)
  | [], out => out
  | (c, vs) :: rest, out => sampleMapCols rest (extendAt c vs out)

/-- Embedding of `_build_sample_map` (refine.py lines 409-414). -/
def sampleMapTables : List CsvTable → List (String × List String) →
    List (String × List String)
  | [], out => out
  | t :: rest, out => sampleMapTables rest (sampleMapCols t.columns out)

/-- Embedding of `compare_csv_schemas_with_samples` (refine.py lines 403-437). -/
def compare_csv_schemas_with_samples (csv1 csv2 : CsvStructure) : CsvComparison :=
  let cols1 := csv1.all_columns
  let cols2 := csv2.all_columns
  let common_cols := interSorted cols1 cols2
  let map1 := sampleMapTables csv1.tables []
  let map2 := sampleMapTables csv2.tables []
  let per_col := common_cols.map fun col =>
    let s1 := (lookupList col map1).getD []
    let s2 := (lookupList col map2).getD []
    { column := col, dataset1_samples := sortStrs s1.dedup,
      dataset2_samples := sortStrs s2.dedup, common_samples := interAll s1 s2 }
  { dataset1_columns := sortStrs cols1.dedup, dataset2_columns := sortStrs cols2.dedup,
    common_columns := common_cols, per_column_sample_overlap := per_col }

/-- The internal refinement report assembled by `refine_similarity`. -/
structure RefinementReport where
  dataprofile1 : String
  dataprofile2 : String
  dataprofile1_content_type : String
  dataprofile2_content_type : String
  distribution_dataset1 : DistSummary
  distribution_dataset2 : DistSummary
  txt_structure_dataset1 : TextStructure
  txt_structure_dataset2 : TextStructure
  csv_structure_dataset1 : CsvStructure
  csv_structure_dataset2 : CsvStructure
  txt_comparison : TxtComparison
  csv_schema_comparison : CsvComparison
  note : String
deriving DecidableEq

/-- The report-building part of `refine_similarity` (refine.py lines 473-539),
run after both profile files were found and parsed. -/
def refineLoaded (dataprofile1 dataprofile2 : String) (dp1 dp2 : DataProfile) :
    RefinementReport :=
  let content_type1 := infer_content_type dp1
  let content_type2 := infer_content_type dp2
  let dist1 := analyze_distribution dp1
  let dist2 := analyze_distribution dp2
  let txt1 := extract_txt_documents dp1
  let txt2 := extract_txt_documents dp2
  let txt_cmp := compare_txt_files txt1 txt2
  let csv1 := extract_csv_tables_with_samples dp1
  let csv2 := extract_csv_tables_with_samples dp2
  let csv_cmp := compare_csv_schemas_with_samples csv1 csv2
  let notes0 : List String :=
    [("Dataset1 content type: ") ++ content_type1 ++ ("."),
     ("Dataset2 content type: ") ++ content_type2 ++ (".")]
  let notes1 :=
    if !txt_cmp.common_document_names.isEmpty then
      notes0 ++ [("TXT: found ") ++ toString txt_cmp.common_document_names.length ++
        (" common document names.")]
    else notes0
  let notes2 :=
    if !txt_cmp.common_document_keywords.isEmpty then
      notes1 ++ [("TXT: found ") ++ toString txt_cmp.common_document_keywords.length ++
        (" common document keywords.")]
    else notes1
  let per_doc := txt_cmp.per_document_keyword_overlap
  let per_doc_with_overlap := per_doc.countP fun x => !x.common_keywords.isEmpty
  let notes3 :=
    if per_doc_with_overlap > 0 then
      notes2 ++ [("TXT: keyword overlap detected for ") ++ toString per_doc_with_overlap ++
        (" common-named documents.")]
    else notes2
  let notes4 :=
    if !csv_cmp.common_columns.isEmpty then
      notes3 ++ [("CSV: found ") ++ toString csv_cmp.common_columns.length ++
        (" common column names.")]
    else notes3
  let notes5 :=
    if txt_cmp.common_document_names.isEmpty && txt_cmp.common_document_keywords.isEmpty
        && csv_cmp.common_columns.isEmpty then
      notes4 ++ [("No clear structural similarity found (TXT or CSV).")]
    else notes4
  { dataprofile1 := dataprofile1, dataprofile2 := dataprofile2,
    dataprofile1_content_type := content_type1, dataprofile2_content_type := content_type2,
    distribution_dataset1 := dist1, distribution_dataset2 := dist2,
    txt_structure_dataset1 := txt1, txt_structure_dataset2 := txt2,
    csv_structure_dataset1 := csv1, csv_structure_dataset2 := csv2,
    txt_comparison := txt_cmp, csv_schema_comparison := csv_cmp,
    note := joinSpace notes5 }

/-- Embedding of `refine_similarity` (refine.py lines 444-539).  The file
storage is modelled as a partial map from resolved path strings to parsed
profile documents; a path mapped to `none` does not exist.  Path resolution
`Path(folder) / name` renders as `folder ++ "/" ++ name`. -/
def refine_similarity (fstore : String → Option DataProfile)
    (folder_path dataprofile1 dataprofile2 : String) : Except String RefinementReport :=
  let file1 := folder_path ++ ("/") ++ dataprofile1
  let file2 := folder_path ++ ("/") ++ dataprofile2
  match fstore file1, fstore file2 with
  | some dp1, some dp2 => Except.ok (refineLoaded dataprofile1 dataprofile2 dp1 dp2)
  | _, _ => Except.error (("One or both files not found: ") ++ file1 ++ (" / ") ++ file2)

/-- The codepoint comparison is total. -/
theorem strLeData_total : ∀ l m : List Char, strLeData l m = true ∨ strLeData m l = true := by
  intro l
  induction l with
  | nil => intro m; exact Or.inl rfl
  | cons a as ih =>
    intro m
    cases m with
    | nil => exact Or.inr rfl
    | cons b bs =>
      simp only [strLeData]
      rcases Nat.lt_trichotomy a.toNat b.toNat with h | h | h
      · left
        simp [h]
      · have h1 : ¬ a.toNat < b.toNat := by omega
        have h2 : ¬ b.toNat < a.toNat := by omega
        rcases ih bs with h3 | h3
        · left
          simp [h1, h2, h3]
        · right
          simp [h1, h2, h3]
      · right
        simp [h]

/-- The codepoint comparison is transitive. -/
theorem strLeData_trans : ∀ l m n : List Char,
    strLeData l m = true → strLeData m n = true → strLeData l n = true := by
  intro l
  induction l with
  | nil => intro m n _ _; rfl
  | cons a as ih =>
    intro m n h1 h2
    cases m with
    | nil => simp [strLeData] at h1
    | cons b bs =>
      cases n with
      | nil => simp [strLeData] at h2
      | cons c cs =>
        simp only [strLeData] at h1 h2 ⊢
        by_cases hab : a.toNat < b.toNat <;> by_cases hbc : b.toNat < c.toNat
        · simp [show a.toNat < c.toNat by omega]
        · by_cases hcb : c.toNat < b.toNat
          · simp [hbc, hcb] at h2
          · simp [show a.toNat < c.toNat by omega]
        · by_cases hba : b.toNat < a.toNat
          · simp [hab, hba] at h1
          · simp [show a.toNat < c.toNat by omega]
        · by_cases hba : b.toNat < a.toNat
          · simp [hab, hba] at h1
          · by_cases hcb : c.toNat < b.toNat
            · simp [hbc, hcb] at h2
            · have hac1 : ¬ a.toNat < c.toNat := by omega
              have hca : ¬ c.toNat < a.toNat := by omega
              simp only [hab, hba, if_false] at h1
              simp only [hbc, hcb, if_false] at h2
              simp only [hac1, hca, if_false]
              exact ih bs cs h1 h2

/-- The codepoint comparison is antisymmetric. -/
theorem strLeData_antisymm : ∀ l m : List Char,
    strLeData l m = true → strLeData m l = true → l = m := by
  intro l
  induction l with
  | nil =>
    intro m h1 h2
    cases m with
    | nil => rfl
    | cons b bs => simp [strLeData] at h2
  | cons a as ih =>
    intro m h1 h2
    cases m with
    | nil => simp [strLeData] at h1
    | cons b bs =>
      simp only [strLeData] at h1 h2
      by_cases hab : a.toNat < b.toNat
      · simp [show ¬ b.toNat < a.toNat by omega, hab] at h2
      · by_cases hba : b.toNat < a.toNat
        · simp [hab, hba] at h1
        · have hEq : a.toNat = b.toNat := by omega
          have hc : a = b := by
            apply Char.ext
            have := hEq
            simp only [Char.toNat] at this
            exact UInt32.toNat.inj this
          simp only [hab, hba, if_false] at h1 h2
          rw [hc, ih bs h1 h2]

instance : IsTotal String (fun a b : String => strLeB a b = true) :=
  ⟨fun a b => strLeData_total a.data b.data⟩

instance : IsTrans String (fun a b : String => strLeB a b = true) :=
  ⟨fun a b c => strLeData_trans a.data b.data c.data⟩

instance : IsAntisymm String (fun a b : String => strLeB a b = true) :=
  ⟨fun a b h1 h2 => by
    cases a with
    | mk da =>
      cases b with
      | mk db =>
        rw [strLeData_antisymm da db h1 h2]⟩

/-- Membership is preserved by the sort. -/
theorem mem_sortStrs {x : String} {l : List String} : x ∈ sortStrs l ↔ x ∈ l :=
  (List.perm_insertionSort (fun a b : String => strLeB a b = true) l).mem_iff

/-- The sort output is sorted by the string order. -/
theorem sorted_sortStrs (l : List String) :
    List.Sorted (fun a b : String => strLeB a b = true) (sortStrs l) :=
  List.sorted_insertionSort (fun a b : String => strLeB a b = true) l

/-- The sort preserves duplicate-freedom. -/
theorem nodup_sortStrs {l : List String} (h : l.Nodup) : (sortStrs l).Nodup :=
  (List.perm_insertionSort (fun a b : String => strLeB a b = true) l).symm.nodup h

/-- Two sorted duplicate-free string lists with the same members are equal. -/
theorem sorted_nodup_ext {l1 l2 : List String}
    (s1 : List.Sorted (fun a b : String => strLeB a b = true) l1)
    (s2 : List.Sorted (fun a b : String => strLeB a b = true) l2)
    (n1 : l1.Nodup) (n2 : l2.Nodup) (h : ∀ x, x ∈ l1 ↔ x ∈ l2) : l1 = l2 :=
  List.eq_of_perm_of_sorted ((List.perm_ext_iff_of_nodup n1 n2).mpr h) s1 s2

/-- Spec-side classification of one resolved encoding, following the
claim's ordered case list: text (0), csv (1), sql (2), other (3, for an
empty/unresolved format or one matching none of the above). -/
def claimEncClass (e : String) : Nat :=
  if e = "" then 3
  else if pyStartsWith e ("text/") && e != "text/csv" then 0
  else if e == "text/csv" || pyContains e ("excel") then 1
  else if pyContains e ("sql") then 2
  else 3

/-- The resolved encoding of a summarized item, lowercased. -/
def itemEnc (it : DistItem) : String := pyLower (it.encodingFormat.getD (""))

/-- Spec-side flag: some summarized item has a text encoding. -/
def specHasText (p : DataProfile) : Bool :=
  (analyze_distribution p).items.any fun it => claimEncClass (itemEnc it) == 0

/-- Spec-side flag: some summarized item has a csv/excel encoding. -/
def specHasCsv (p : DataProfile) : Bool :=
  (analyze_distribution p).items.any fun it => claimEncClass (itemEnc it) == 1

/-- Spec-side flag: some summarized item has a sql encoding. -/
def specHasSql (p : DataProfile) : Bool :=
  (analyze_distribution p).items.any fun it => claimEncClass (itemEnc it) == 2

/-- Spec-side flag: some summarized item has an empty or unrecognized
encoding. -/
def specHasOther (p : DataProfile) : Bool :=
  (analyze_distribution p).items.any fun it => claimEncClass (itemEnc it) == 3

/-- The imperative flag loop computes, on each component, the disjunction
of the incoming flag with the existence of an item of that class. -/
theorem contentFlags_eq (items : List DistItem) : ∀ a b c d : Bool,
    contentFlags items (a, b, c, d) =
      (a || items.any fun it => claimEncClass (itemEnc it) == 0,
       b || items.any fun it => claimEncClass (itemEnc it) == 1,
       c || items.any fun it => claimEncClass (itemEnc it) == 2,
       d || items.any fun it => claimEncClass (itemEnc it) == 3) := by
  induction items with
  | nil => intro a b c d; simp [contentFlags]
  | cons it rest ih =>
    intro a b c d
    simp only [contentFlags, List.any_cons]
    by_cases h1 : pyLower (it.encodingFormat.getD ("")) = ""
    · simp [h1, ih, claimEncClass, itemEnc, Bool.or_assoc, Bool.or_comm, Bool.or_left_comm]
    · by_cases h2 : (pyStartsWith (pyLower (it.encodingFormat.getD (""))) ("text/")
          && pyLower (it.encodingFormat.getD ("")) != "text/csv") = true
      · simp [h1, h2, ih, claimEncClass, itemEnc, Bool.or_assoc, Bool.or_comm,
          Bool.or_left_comm]
      · by_cases h3 : (pyLower (it.encodingFormat.getD ("")) == "text/csv"
            || pyContains (pyLower (it.encodingFormat.getD (""))) ("excel")) = true
        · simp [h1, h2, h3, ih, claimEncClass, itemEnc, Bool.or_assoc, Bool.or_comm,
            Bool.or_left_comm]
        · by_cases h4 : pyContains (pyLower (it.encodingFormat.getD (""))) ("sql") = true
          · simp [h1, h2, h3, h4, ih, claimEncClass, itemEnc, Bool.or_assoc,
              Bool.or_comm, Bool.or_left_comm]
          · simp [h1, h2, h3, h4, ih, claimEncClass, itemEnc, Bool.or_assoc,
              Bool.or_comm, Bool.or_left_comm]

/-- C1: `infer_content_type` tracks the four booleans over the resolved
encodings of the summarized items (case-insensitively, per the claim's
ordered case list) and returns UNKNOWN when there are no items, TEXTUAL iff
has_text and none of the other three flags, CSV iff has_csv and none of the
other three, otherwise SQL iff has_sql, otherwise MIXED. -/
theorem infer_content_type_four_flags (p : DataProfile) :
    infer_content_type p =
      (if (analyze_distribution p).items = [] then ("UNKNOWN")
       else if specHasText p && !(specHasCsv p || specHasSql p || specHasOther p) then
         ("TEXTUAL")
       else if specHasCsv p && !(specHasText p || specHasSql p || specHasOther p) then
         ("CSV")
       else if specHasSql p then ("SQL")
       else ("MIXED")) := by
  simp only [infer_content_type, specHasText, specHasCsv, specHasSql, specHasOther,
    contentFlags_eq, Bool.false_or, ← List.isEmpty_iff, Bool.not_or, Bool.and_assoc]

/-- Spec-side ordered priority table of (extension patterns, mime type)
pairs for the format guesser. -/
def extFormatTable : List (List String × String) :=
  [([".csv"], "text/csv"), ([".txt"], "text/plain"), ([".sql"], "application/sql"),
   ([".pdf"], "application/pdf"), ([".xls", ".xlsx"], "application/vnd.ms-excel")]

/-- Spec-side first-match scan of a priority table over the joined path
string: the first row one of whose patterns occurs as a substring wins. -/
def firstMatch (joined : String) : List (List String × String) → Option String
  | [] => none
  | (pats, mime) :: rest =>
    if pats.any fun pat => pyContains joined pat then some mime
    else firstMatch joined rest

/-- C5: each summarized entry resolves `encodingFormat` to the declared
value when present and non-empty, and otherwise to the first-match
substring scan of the fixed priority table over the space-joined
lowercased concatenation of `includes`, `contentUrl`, `name`; and
`includes` is copied through only for folder-kind entries. -/
theorem analyze_distribution_encoding_resolution (p : DataProfile) (d : DistEntry) :
    (analyze_distribution p).items = (p.distribution.getD []).map analyzeDistItem ∧
    guess_format_from_paths d = firstMatch (joinedPaths d) extFormatTable ∧
    (∀ s : String, d.encodingFormat = some s → s ≠ "" →
      (analyzeDistItem d).encodingFormat = some s) ∧
    ((d.encodingFormat = none ∨ d.encodingFormat = some ("")) →
      (analyzeDistItem d).encodingFormat = firstMatch (joinedPaths d) extFormatTable) ∧
    (analyzeDistItem d).includes =
      (if (analyzeDistItem d).kind = "folder" then d.includes else none) := by
  have hg : guess_format_from_paths d = firstMatch (joinedPaths d) extFormatTable := by
    simp only [guess_format_from_paths, firstMatch, extFormatTable, List.any_cons,
      List.any_nil, Bool.or_false]
  refine ⟨rfl, hg, ?_, ?_, ?_⟩
  · intro s hs hne
    simp [analyzeDistItem, pyStrOr, hs, hne]
  · rintro (h | h) <;> simp [analyzeDistItem, pyStrOr, h, hg]
  · simp only [analyzeDistItem]
    split <;> simp_all

/-- C10: in the CSV extractor, the source reference is taken from
`source.fileSet` whenever that object is present and non-empty, from
`source.fileObject` only when `source.fileSet` is missing or empty, and a
field whose `source.fileSet` is a non-empty object without an `@id` key
contributes nothing, regardless of what `source.fileObject` names. -/
theorem csv_source_ref_resolution :
    (∀ (s : FieldSource) (r : RefObj), s.fileSet = some r → r.truthy = true →
      refOrElse s.fileSet (refOrElse s.fileObject emptyRef) = r) ∧
    (∀ s : FieldSource,
      (s.fileSet = none ∨ ∃ r : RefObj, s.fileSet = some r ∧ r.truthy = false) →
      refOrElse s.fileSet (refOrElse s.fileObject emptyRef) =
        refOrElse s.fileObject emptyRef) ∧
    (∀ (acc : List (String × CsvTable)) (f : RSField) (src : FieldSource) (r : RefObj),
      f.source = some src → src.fileSet = some r → r.extra = true → r.id = none →
      csvProcessField acc f = acc) := by
  refine ⟨?_, ?_, ?_⟩
  · intro s r hfs htr
    simp [refOrElse, hfs, htr]
  · rintro s (h | ⟨r, hfs, htr⟩) <;> simp [refOrElse, *]
  · intro acc f src r hsrc hfs hextra hid
    simp [csvProcessField, hsrc, hfs, refOrElse, RefObj.truthy, RefObj.getId, hextra, hid]

/-- Concrete accumulator for the C10 witness: one known table `t1`. -/
def c10Acc : List (String × CsvTable) := [("t1", { id := "t1", name := "t1", columns := [] })]

/-- Concrete field for the C10 witness: `source.fileSet` is a non-empty
object without `@id`, while `source.fileObject.@id` names the known table. -/
def c10Field : RSField :=
  { atType := none, name := some "col", source := some
      { fileSet := some { id := none, extra := true },
        fileObject := some { id := some (some "t1"), extra := false } },
    keywords := .nullv, sample := .nullv }

/-- Witness for C10: the field contributes no column although its
`fileObject` reference names a known table. -/
theorem csv_source_ref_resolution_witness :
    containsKey ("t1") c10Acc = true ∧ csvProcessField c10Acc c10Field = c10Acc :=
  ⟨by decide,
   csv_source_ref_resolution.2.2 c10Acc c10Field
     { fileSet := some { id := none, extra := true },
       fileObject := some { id := some (some "t1"), extra := false } }
     { id := none, extra := true } rfl rfl rfl rfl⟩

/-- C6: when either resolved path is missing from the store, the pipeline
fails with the not-found error naming both resolved paths, and produces no
report. -/
theorem refine_similarity_missing_files (fstore : String → Option DataProfile)
    (folder_path dataprofile1 dataprofile2 : String)
    (h : fstore (folder_path ++ ("/") ++ dataprofile1) = none ∨
         fstore (folder_path ++ ("/") ++ dataprofile2) = none) :
    refine_similarity fstore folder_path dataprofile1 dataprofile2 =
      Except.error (("One or both files not found: ") ++
        (folder_path ++ ("/") ++ dataprofile1) ++ (" / ") ++
        (folder_path ++ ("/") ++ dataprofile2)) := by
  unfold refine_similarity
  rcases h with h | h
  · simp [h]
  · rcases h2 : fstore (folder_path ++ ("/") ++ dataprofile1) with _ | d1 <;> simp [h, h2]

/-- Witness for C6 on an empty store and concrete names. -/
theorem refine_similarity_missing_files_witness :
    refine_similarity (fun _ => none) ("data") ("a.json") ("b.json") =
      Except.error ("One or both files not found: data/a.json / data/b.json") := by
  rw [refine_similarity_missing_files (fun _ => none) ("data") ("a.json") ("b.json")
    (Or.inl rfl)]
  rfl

/-- Concrete entries for the C5 witness. -/
def c5dA : DistEntry :=
  { atId := none, atType := none, name := some "notes.TXT", encodingFormat := none,
    includes := none, contentUrl := none }

/-- Concrete entry with a declared encoding for the C5 witness. -/
def c5dB : DistEntry :=
  { atId := none, atType := none, name := none, encodingFormat := some "application/json",
    includes := none, contentUrl := none }

/-- Witness for C5: a declared non-empty encoding is kept, a missing one is
resolved by the priority-table scan. -/
theorem analyze_distribution_encoding_resolution_witness :
    (analyzeDistItem c5dA).encodingFormat = firstMatch (joinedPaths c5dA) extFormatTable ∧
    (analyzeDistItem c5dB).encodingFormat = some ("application/json") :=
  ⟨(analyze_distribution_encoding_resolution { distribution := none, recordSet := none }
      c5dA).2.2.2.1 (Or.inl rfl),
   (analyze_distribution_encoding_resolution { distribution := none, recordSet := none }
      c5dB).2.2.1 ("application/json") rfl (by decide)⟩

/-- A pattern that is a suffix of a middle component occurs as a substring
of the surrounding concatenation. -/
theorem pyContains_append_mid {a u b pat : String} (h : pyEndsWith u pat = true) :
    pyContains (a ++ u ++ b) pat = true := by
  simp only [pyEndsWith, decide_eq_true_eq] at h
  simp only [pyContains, decide_eq_true_eq, String.data_append]
  exact h.isInfix.trans (List.infix_append a.data u.data b.data)

/-- Concrete entry refuting C2 as stated: no `encodingFormat`, `contentUrl`
ending in `.csv`, but an `@id` is present. -/
def c2Entry : DistEntry :=
  { atId := some "t1", atType := none, name := none, encodingFormat := none,
    includes := none, contentUrl := some "data/a.csv" }

/-- Concrete profile refuting C2 as stated. -/
def c2Profile : DataProfile := { distribution := some [c2Entry], recordSet := none }

/-- Counterexample to C2: this profile satisfies every hypothesis of the
claim (single distribution entry, no `encodingFormat`, `contentUrl` ending
in `.csv`, no `recordSet`), its content type is CSV, yet `tables` is not
empty — the entry's `@id` makes it a (column-less) table even though no
record-set field references it. -/
theorem csv_scenario_counterexample :
    c2Profile.recordSet = none ∧
    c2Profile.distribution = some [c2Entry] ∧
    c2Entry.encodingFormat = none ∧
    pyEndsWith (c2Entry.contentUrl.getD ("")) (".csv") = true ∧
    infer_content_type c2Profile = "CSV" ∧
    (extract_csv_tables_with_samples c2Profile).tables ≠ [] := by decide

/-- C2 amended: for every profile whose distribution is one entry with no
`encodingFormat`, no (or empty) `@id`, and a `contentUrl` whose lowercasing
ends in `.csv`, and which has no `recordSet`, the content type is CSV and
the CSV structure is empty. -/
theorem csv_scenario_no_id (p : DataProfile) (d : DistEntry) (u : String)
    (hdist : p.distribution = some [d])
    (hrs : p.recordSet = none)
    (henc : d.encodingFormat = none)
    (hurl : d.contentUrl = some u)
    (hcsv : pyEndsWith (pyLower u) (".csv") = true)
    (hid : d.atId = none ∨ d.atId = some ("")) :
    infer_content_type p = "CSV" ∧
    (extract_csv_tables_with_samples p).tables = [] ∧
    (extract_csv_tables_with_samples p).all_columns = [] := by
  have hjoin : pyContains (joinedPaths d) (".csv") = true := by
    have : joinedPaths d =
        (pyLower (d.includes.getD ("")) ++ (" ")) ++ pyLower u ++
          ((" ") ++ pyLower (d.name.getD (""))) := by
      simp [joinedPaths, hurl, String.append_assoc]
    rw [this]
    exact pyContains_append_mid hcsv
  have hguess : guess_format_from_paths d = some ("text/csv") := by
    simp [guess_format_from_paths, hjoin]
  have henc2 : (analyzeDistItem d).encodingFormat = some ("text/csv") := by
    simp [analyzeDistItem, pyStrOr, henc, hguess]
  refine ⟨?_, ?_⟩
  · simp only [infer_content_type, analyze_distribution, hdist, Option.getD_some,
      List.map_cons, List.map_nil]
    simp [contentFlags, henc2, pyLower, pyStartsWith, pyContains]
  · have hscan : csvScanDist [d] [] = [] := by
      rcases hid with h | h <;> simp [csvScanDist, henc2, pyStrOr, henc, hguess, h]
    constructor <;> simp [extract_csv_tables_with_samples, hdist, hscan]

/-- Witness for the amended C2 on a concrete id-less entry. -/
def c2wEntry : DistEntry :=
  { atId := none, atType := none, name := none, encodingFormat := none,
    includes := none, contentUrl := some "x/a.csv" }

/-- Witness profile for the amended C2. -/
def c2wProfile : DataProfile := { distribution := some [c2wEntry], recordSet := none }

/-- Witness for the amended C2. -/
theorem csv_scenario_no_id_witness :
    infer_content_type c2wProfile = "CSV" ∧
    (extract_csv_tables_with_samples c2wProfile).tables = [] ∧
    (extract_csv_tables_with_samples c2wProfile).all_columns = [] :=
  csv_scenario_no_id c2wProfile c2wEntry ("x/a.csv") rfl rfl rfl rfl (by decide) (Or.inl rfl)

/-- A string all of whose characters are lowercased is empty only if the
original was. -/
theorem pyLower_eq_empty_iff {s : String} : pyLower s = "" ↔ s = "" := by
  constructor
  · intro h
    have hd : s.data.map Char.toLower = [] := congrArg String.data h
    have : s.data = [] := List.map_eq_nil_iff.mp hd
    cases s with
    | mk d => cases this; rfl
  · intro h
    rw [h]
    rfl

/-- A key paired in an association list is found by the membership test. -/
theorem mem_containsKey {α : Type} {k : String} {v : α} :
    ∀ {l : List (String × α)}, (k, v) ∈ l → containsKey k l = true := by
  intro l
  induction l with
  | nil => intro h; simp at h
  | cons kv rest ih =>
    obtain ⟨k2, v2⟩ := kv
    intro h
    by_cases hk : k2 = k
    · simp [containsKey, lookupList, hk]
    · rcases List.mem_cons.mp h with h1 | h1
      · exact absurd (congrArg Prod.fst h1).symm hk
      · simpa [containsKey, lookupList, hk] using ih h1

/-- Decomposition of membership in the result of `appendAt`. -/
theorem mem_appendAt {α : Type} {k key : String} {x : α} {docs : List α} :
    ∀ {l : List (String × List α)}, (k, docs) ∈ appendAt key x l →
      ∃ ds, (k, ds) ∈ l ∧ (docs = ds ∨ (k = key ∧ docs = ds ++ [x])) := by
  intro l
  induction l with
  | nil => intro h; simp [appendAt] at h
  | cons kv rest ih =>
    obtain ⟨k2, vs⟩ := kv
    intro h
    simp only [appendAt] at h
    by_cases hk : k2 = key
    · rw [if_pos hk] at h
      rcases List.mem_cons.mp h with h1 | h1
      · have hk2 : k = k2 := congrArg Prod.fst h1
        have hd : docs = vs ++ [x] := congrArg Prod.snd h1
        exact ⟨vs, by rw [hk2]; exact List.mem_cons_self _ _, Or.inr ⟨hk2.trans hk, hd⟩⟩
      · exact ⟨docs, List.mem_cons_of_mem _ h1, Or.inl rfl⟩
    · rw [if_neg hk] at h
      rcases List.mem_cons.mp h with h1 | h1
      · have hk2 : k = k2 := congrArg Prod.fst h1
        have hd : docs = vs := congrArg Prod.snd h1
        exact ⟨vs, by rw [hk2]; exact List.mem_cons_self _ _, Or.inl hd⟩
      · obtain ⟨ds, hmem, hcase⟩ := ih h1
        exact ⟨ds, List.mem_cons_of_mem _ hmem, hcase⟩

/-- A fold preserves any invariant its step function preserves. -/
theorem foldl_preserve {α β : Type} (P : β → Prop) (step : β → α → β)
    (hstep : ∀ b a, P b → P (step b a)) :
    ∀ (l : List α) (b : β), P b → P (l.foldl step b) := by
  intro l
  induction l with
  | nil => intro b hb; simpa using hb
  | cons a rest ih =>
    intro b hb
    simp only [List.foldl_cons]
    exact ih _ (hstep b a hb)

/-- Invariant of the document accumulation: every key is a known text
file-set and every stored document has a non-empty normalized name. -/
def dbfInv (sets : List (String × TxtFileSet)) (acc : List (String × List TxtDoc)) : Prop :=
  ∀ kd ∈ acc, containsKey kd.1 sets = true ∧ ∀ d ∈ kd.2, d.name_norm ≠ ""

/-- The per-field document step preserves the accumulation invariant. -/
theorem txtProcessField_inv (sets : List (String × TxtFileSet))
    (acc : List (String × List TxtDoc)) (f : RSField) (h : dbfInv sets acc) :
    dbfInv sets (txtProcessField sets acc f) := by
  dsimp only [txtProcessField]
  split
  · exact h
  · split
    · exact h
    · split
      · split
        · exact h
        · rename_i hne
          intro kd hkd
          obtain ⟨k, docs⟩ := kd
          obtain ⟨ds, hmem, hcase⟩ := mem_appendAt hkd
          rcases hcase with rfl | ⟨hkk, rfl⟩
          · exact h _ hmem
          · refine ⟨(h _ hmem).1, ?_⟩
            intro d hd
            rcases List.mem_append.mp hd with h1 | h1
            · exact (h _ hmem).2 d h1
            · have hd1 := List.mem_singleton.mp h1
              subst hd1
              exact fun hcon => hne (pyLower_eq_empty_iff.mp hcon)
      · exact h

/-- Membership in the collected normalized names. -/
theorem mem_collectNames {x : String} :
    ∀ {l : List (String × List TxtDoc)},
      x ∈ collectNames l ↔ ∃ kd ∈ l, ∃ d ∈ kd.2, d.name_norm = x := by
  intro l
  induction l with
  | nil => simp [collectNames]
  | cons kv rest ih =>
    obtain ⟨k, docs⟩ := kv
    simp only [collectNames, List.mem_append, List.mem_map, ih, List.mem_cons]
    constructor
    · rintro (⟨d, hd, hx⟩ | ⟨kd, hkd, d, hd, hx⟩)
      · exact ⟨(k, docs), Or.inl rfl, d, hd, hx⟩
      · exact ⟨kd, Or.inr hkd, d, hd, hx⟩
    · rintro ⟨kd, rfl | hkd, d, hd, hx⟩
      · exact Or.inl ⟨d, hd, hx⟩
      · exact Or.inr ⟨kd, hkd, d, hd, hx⟩

/-- Membership in the concatenated keywords of a document list. -/
theorem mem_docsKeywords {x : String} :
    ∀ {ds : List TxtDoc}, x ∈ docsKeywords ds ↔ ∃ d ∈ ds, x ∈ d.keywords := by
  intro ds
  induction ds with
  | nil => simp [docsKeywords]
  | cons d rest ih =>
    simp only [docsKeywords, List.mem_append, ih, List.mem_cons]
    constructor
    · rintro (hx | ⟨d2, hd2, hx⟩)
      · exact ⟨d, Or.inl rfl, hx⟩
      · exact ⟨d2, Or.inr hd2, hx⟩
    · rintro ⟨d2, hd2 | hd2, hx⟩
      · exact Or.inl (hd2 ▸ hx)
      · exact Or.inr ⟨d2, hd2, hx⟩

/-- Membership in the collected keywords. -/
theorem mem_collectKeywords {x : String} :
    ∀ {l : List (String × List TxtDoc)},
      x ∈ collectKeywords l ↔ ∃ kd ∈ l, ∃ d ∈ kd.2, x ∈ d.keywords := by
  intro l
  induction l with
  | nil => simp [collectKeywords]
  | cons kv rest ih =>
    obtain ⟨k, docs⟩ := kv
    simp only [collectKeywords, List.mem_append, mem_docsKeywords, ih, List.mem_cons]
    constructor
    · rintro (⟨d, hd, hx⟩ | ⟨kd, hkd, d, hd, hx⟩)
      · exact ⟨(k, docs), Or.inl rfl, d, hd, hx⟩
      · exact ⟨kd, Or.inr hkd, d, hd, hx⟩
    · rintro ⟨kd, rfl | hkd, d, hd, hx⟩
      · exact Or.inl ⟨d, hd, hx⟩
      · exact Or.inr ⟨kd, hkd, d, hd, hx⟩

/-- C9: in every extracted text structure, each document list is stored
under a key of `file_sets`, and `all_document_names` /
`all_document_keywords` are exactly the sorted deduplicated unions of the
documents' normalized names and keyword sets over `documents_by_file_set`. -/
theorem extract_txt_documents_invariant (p : DataProfile) :
    (∀ kd ∈ (extract_txt_documents p).documents_by_file_set,
      containsKey kd.1 (extract_txt_documents p).file_sets = true) ∧
    (∀ x : String, x ∈ (extract_txt_documents p).all_document_names ↔
      ∃ kd ∈ (extract_txt_documents p).documents_by_file_set, ∃ d ∈ kd.2, d.name_norm = x) ∧
    List.Sorted (fun a b : String => strLeB a b = true) (extract_txt_documents p).all_document_names ∧
    (extract_txt_documents p).all_document_names.Nodup ∧
    (∀ x : String, x ∈ (extract_txt_documents p).all_document_keywords ↔
      ∃ kd ∈ (extract_txt_documents p).documents_by_file_set, ∃ d ∈ kd.2, x ∈ d.keywords) ∧
    List.Sorted (fun a b : String => strLeB a b = true) (extract_txt_documents p).all_document_keywords ∧
    (extract_txt_documents p).all_document_keywords.Nodup := by
  have hinv : dbfInv (txtScanDist (p.distribution.getD []) [])
      ((p.recordSet.getD []).foldl
        (fun acc recordset => (recordset.field.getD []).foldl
          (txtProcessField (txtScanDist (p.distribution.getD []) [])) acc)
        ((txtScanDist (p.distribution.getD []) []).map fun kv => (kv.1, ([] : List TxtDoc)))) := by
    apply foldl_preserve
    · intro b a hb
      apply foldl_preserve
      · intro b2 a2 hb2
        exact txtProcessField_inv _ b2 a2 hb2
      · exact hb
    · intro kd hkd
      obtain ⟨kv, hkv, hkd2⟩ := List.mem_map.mp hkd
      constructor
      · rw [← hkd2]
        exact mem_containsKey (v := kv.2) (by rw [Prod.mk.eta]; exact hkv)
      · intro d hd
        rw [← hkd2] at hd
        simp at hd
  simp only [extract_txt_documents]
  refine ⟨?_, ?_, ?_, ?_, ?_, ?_, ?_⟩
  · intro kd hkd
    exact (hinv kd hkd).1
  · intro x
    rw [mem_sortStrs, List.mem_dedup, List.mem_filter]
    constructor
    · rintro ⟨hx, _⟩
      exact mem_collectNames.mp hx
    · intro hex
      refine ⟨mem_collectNames.mpr hex, ?_⟩
      obtain ⟨kd, hkd, d, hd, rfl⟩ := hex
      have := (hinv kd hkd).2 d hd
      simpa [bne_iff_ne] using this
  · exact sorted_sortStrs _
  · exact nodup_sortStrs (List.nodup_dedup _)
  · intro x
    rw [mem_sortStrs, List.mem_dedup]
    exact mem_collectKeywords
  · exact sorted_sortStrs _
  · exact nodup_sortStrs (List.nodup_dedup _)

/-- Concrete file set for the C9 witness. -/
def c9FS : DistEntry :=
  { atId := some "fs1", atType := some "sc:FileSet", name := none,
    encodingFormat := some "text/plain", includes := none, contentUrl := none }

/-- Concrete document field for the C9 witness. -/
def c9Doc : RSField :=
  { atType := some "sc:Document", name := some " Read Me ", source := some
      { fileSet := some { id := some (some "fs1"), extra := false }, fileObject := none },
    keywords := .strv "Alpha", sample := .nullv }

/-- Concrete profile for the C9 witness. -/
def c9Profile : DataProfile :=
  { distribution := some [c9FS], recordSet := some [{ field := some [c9Doc] }] }

/-- Witness for C9: the stored document list's key is a known file set. -/
theorem extract_txt_documents_invariant_witness :
    containsKey ("fs1") (extract_txt_documents c9Profile).file_sets = true :=
  (extract_txt_documents_invariant c9Profile).1
    (("fs1"), [{ name := "Read Me", name_norm := "read me", keywords := ["alpha"] }])
    (by decide)

/-- The key written by `upsert` is present afterwards. -/
theorem containsKey_upsert_self {α : Type} (k : String) (v : α) :
    ∀ l : List (String × α), containsKey k (upsert k v l) = true := by
  intro l
  induction l with
  | nil => simp [upsert, containsKey, lookupList]
  | cons kv rest ih =>
    obtain ⟨k2, v2⟩ := kv
    by_cases hk : k2 = k <;> simp [upsert, containsKey, lookupList, hk] <;>
      simpa [containsKey] using ih

/-- Keys present before an `upsert` are still present afterwards. -/
theorem containsKey_upsert_mono {α : Type} {i k : String} {v : α} :
    ∀ {l : List (String × α)}, containsKey i l = true →
      containsKey i (upsert k v l) = true := by
  intro l
  induction l with
  | nil => intro h; simp [containsKey, lookupList] at h
  | cons kv rest ih =>
    obtain ⟨k2, v2⟩ := kv
    intro h
    by_cases hk : k2 = k
    · by_cases hik : k = i
      · simp [upsert, hk, containsKey, lookupList, hik]
      · have hik2 : ¬(k2 = i) := by rw [hk]; exact hik
        simp only [containsKey, lookupList, hik2, if_false] at h
        simp [upsert, hk, containsKey, lookupList, hik, h]
    · by_cases hik : k2 = i
      · have hik2 : ¬(i = k) := by rw [← hik]; exact hk
        simp [upsert, hk, containsKey, lookupList, hik, hik2]
      · simp only [containsKey, lookupList, hik, if_false] at h
        simpa [upsert, hk, containsKey, lookupList, hik] using ih h

/-- Membership after an `upsert` comes from the new pair or the old list. -/
theorem mem_upsert {α : Type} {kt : String × α} {k : String} {v : α} :
    ∀ {l : List (String × α)}, kt ∈ upsert k v l → kt = (k, v) ∨ kt ∈ l := by
  intro l
  induction l with
  | nil => intro h; simpa [upsert] using h
  | cons kv rest ih =>
    obtain ⟨k2, v2⟩ := kv
    intro h
    simp only [upsert] at h
    by_cases hk : k2 = k
    · rw [if_pos hk] at h
      rcases List.mem_cons.mp h with h1 | h1
      · exact Or.inl h1
      · exact Or.inr (List.mem_cons_of_mem _ h1)
    · rw [if_neg hk] at h
      rcases List.mem_cons.mp h with h1 | h1
      · exact Or.inr (h1 ▸ List.mem_cons_self _ _)
      · rcases ih h1 with h2 | h2
        · exact Or.inl h2
        · exact Or.inr (List.mem_cons_of_mem _ h2)

/-- Spec-side matching condition for a CSV-source distribution entry: its
resolved lowercased encoding is exactly text/csv or mentions excel. -/
def csvEncMatch (d : DistEntry) : Bool :=
  pyLower ((pyStrOr d.encodingFormat (guess_format_from_paths d)).getD ("")) == "text/csv"
    || pyContains (pyLower ((pyStrOr d.encodingFormat (guess_format_from_paths d)).getD (""))) ("excel")

/-- Keys present in the accumulator survive the distribution scan. -/
theorem csvScanDist_mono {i : String} :
    ∀ (l : List DistEntry) (acc : List (String × CsvTable)),
      containsKey i acc = true → containsKey i (csvScanDist l acc) = true := by
  intro l
  induction l with
  | nil => intro acc h; simpa [csvScanDist] using h
  | cons d rest ih =>
    intro acc h
    simp only [csvScanDist]
    split
    · rcases hid : d.atId with _ | j
      · exact ih acc h
      · by_cases hj : j = ""
        · simp only [hj, if_pos rfl]
          exact ih acc h
        · simp only [if_neg hj]
          exact ih _ (containsKey_upsert_mono h)
    · exact ih acc h

/-- A matching distribution entry with a non-empty id yields a present key. -/
theorem csvScanDist_containsKey {i : String} :
    ∀ (l : List DistEntry) (acc : List (String × CsvTable)) (d : DistEntry),
      d ∈ l → csvEncMatch d = true → d.atId = some i → i ≠ "" →
      containsKey i (csvScanDist l acc) = true := by
  intro l
  induction l with
  | nil => intro acc d h; simp at h
  | cons d0 rest ih =>
    intro acc d hmem hmatch hid hne
    rcases List.mem_cons.mp hmem with h1 | h1
    · subst h1
      simp only [csvScanDist]
      have hm : (pyLower ((pyStrOr d.encodingFormat (guess_format_from_paths d)).getD ("")) == "text/csv"
          || pyContains (pyLower ((pyStrOr d.encodingFormat (guess_format_from_paths d)).getD (""))) ("excel")) = true := by
        simpa [csvEncMatch] using hmatch
      rw [if_pos hm, hid]
      simp only [if_neg hne]
      exact csvScanDist_mono rest _ (containsKey_upsert_self i _ acc)
    · simp only [csvScanDist]
      split
      · rcases hid0 : d0.atId with _ | j
        · exact ih acc d h1 hmatch hid hne
        · by_cases hj : j = ""
          · simp only [hj, if_pos rfl]
            exact ih acc d h1 hmatch hid hne
          · simp only [if_neg hj]
            exact ih _ d h1 hmatch hid hne
      · exact ih acc d h1 hmatch hid hne

/-- Every table produced by the distribution scan keeps its key as `id`,
starts with no columns, and originates from a matching entry whose name
defaults to the id. -/
theorem mem_csvScanDist :
    ∀ (l : List DistEntry) (acc : List (String × CsvTable)) (kt : String × CsvTable),
      kt ∈ csvScanDist l acc → kt ∈ acc ∨
        (kt.2.id = kt.1 ∧ kt.2.columns = [] ∧
          ∃ d ∈ l, csvEncMatch d = true ∧ d.atId = some kt.1 ∧
            kt.2.name = pyStrOrStr d.name kt.1) := by
  intro l
  induction l with
  | nil =>
    intro acc kt h
    exact Or.inl (by simpa [csvScanDist] using h)
  | cons d0 rest ih =>
    intro acc kt h
    simp only [csvScanDist] at h
    split at h
    · rename_i hm
      split at h
      · rename_i j heq
        split at h
        · rcases ih _ _ h with h1 | ⟨hid, hcols, d, hd, hrest⟩
          · exact Or.inl h1
          · exact Or.inr ⟨hid, hcols, d, List.mem_cons_of_mem _ hd, hrest⟩
        · rename_i hj
          rcases ih _ _ h with h1 | ⟨hid, hcols, d, hd, hrest⟩
          · rcases mem_upsert h1 with h2 | h2
            · subst h2
              exact Or.inr ⟨rfl, rfl, d0, List.mem_cons_self _ _,
                by simpa [csvEncMatch] using hm, heq, rfl⟩
            · exact Or.inl h2
          · exact Or.inr ⟨hid, hcols, d, List.mem_cons_of_mem _ hd, hrest⟩
      · rcases ih _ _ h with h1 | ⟨hid, hcols, d, hd, hrest⟩
        · exact Or.inl h1
        · exact Or.inr ⟨hid, hcols, d, List.mem_cons_of_mem _ hd, hrest⟩
    · rcases ih _ _ h with h1 | ⟨hid, hcols, d, hd, hrest⟩
      · exact Or.inl h1
      · exact Or.inr ⟨hid, hcols, d, List.mem_cons_of_mem _ hd, hrest⟩

/-- With no matching entry carrying a usable id, the scan adds nothing. -/
theorem csvScanDist_of_none :
    ∀ (l : List DistEntry) (acc : List (String × CsvTable)),
      (∀ d ∈ l, ¬(csvEncMatch d = true ∧ ∃ i, d.atId = some i ∧ i ≠ "")) →
      csvScanDist l acc = acc := by
  intro l
  induction l with
  | nil => intro acc _; rfl
  | cons d0 rest ih =>
    intro acc hnone
    simp only [csvScanDist]
    split
    · rename_i hm
      rcases hid : d0.atId with _ | j
      · exact ih acc fun d hd => hnone d (List.mem_cons_of_mem _ hd)
      · by_cases hj : j = ""
        · simp only [hj, if_pos rfl]
          exact ih acc fun d hd => hnone d (List.mem_cons_of_mem _ hd)
        · exact absurd ⟨by simpa [csvEncMatch] using hm, j, hid, hj⟩
            (hnone d0 (List.mem_cons_self _ _))
    · exact ih acc fun d hd => hnone d (List.mem_cons_of_mem _ hd)

/-- Membership in the collected column-name keys. -/
theorem mem_collectColumns {x : String} :
    ∀ {l : List CsvTable},
      x ∈ collectColumns l ↔ ∃ t ∈ l, ∃ cv ∈ t.columns, cv.1 = x := by
  intro l
  induction l with
  | nil => simp [collectColumns]
  | cons t rest ih =>
    simp only [collectColumns, List.mem_append, List.mem_map, ih, List.mem_cons]
    constructor
    · rintro (⟨cv, hcv, hx⟩ | ⟨t2, ht2, cv, hcv, hx⟩)
      · exact ⟨t, Or.inl rfl, cv, hcv, hx⟩
      · exact ⟨t2, Or.inr ht2, cv, hcv, hx⟩
    · rintro ⟨t2, rfl | ht2, cv, hcv, hx⟩
      · exact Or.inl ⟨cv, hcv, hx⟩
      · exact Or.inr ⟨t2, ht2, cv, hcv, hx⟩

/-- C4: each matching distribution entry with an id becomes a table keyed
by that id (name defaulting to the id, columns initially empty); with no
matching entry the result is empty without consulting record sets; final
per-column sample lists are deduplicated and sorted, and `all_columns` is
the sorted union of column-name keys across tables. -/
theorem extract_csv_tables_structure (p : DataProfile) :
    (∀ d ∈ p.distribution.getD [], ∀ i : String,
      csvEncMatch d = true → d.atId = some i → i ≠ "" →
      containsKey i (csvScanDist (p.distribution.getD []) []) = true) ∧
    (∀ kt ∈ csvScanDist (p.distribution.getD []) [],
      kt.2.id = kt.1 ∧ kt.2.columns = [] ∧
      ∃ d ∈ p.distribution.getD [], csvEncMatch d = true ∧ d.atId = some kt.1 ∧
        kt.2.name = pyStrOrStr d.name kt.1) ∧
    ((∀ d ∈ p.distribution.getD [], ¬(csvEncMatch d = true ∧ ∃ i, d.atId = some i ∧ i ≠ "")) →
      extract_csv_tables_with_samples p = { tables := [], all_columns := [] }) ∧
    (∀ t ∈ (extract_csv_tables_with_samples p).tables, ∀ cv ∈ t.columns,
      List.Sorted (fun a b : String => strLeB a b = true) cv.2 ∧ cv.2.Nodup) ∧
    (∀ x : String, x ∈ (extract_csv_tables_with_samples p).all_columns ↔
      ∃ t ∈ (extract_csv_tables_with_samples p).tables, ∃ cv ∈ t.columns, cv.1 = x) ∧
    List.Sorted (fun a b : String => strLeB a b = true) (extract_csv_tables_with_samples p).all_columns ∧
    (extract_csv_tables_with_samples p).all_columns.Nodup := by
  refine ⟨?_, ?_, ?_, ?_, ?_, ?_, ?_⟩
  · intro d hd i hm hid hne
    exact csvScanDist_containsKey _ [] d hd hm hid hne
  · intro kt hkt
    rcases mem_csvScanDist _ [] kt hkt with h | h
    · simp at h
    · exact h
  · intro hnone
    simp [extract_csv_tables_with_samples, csvScanDist_of_none _ [] hnone]
  · by_cases hE : (csvScanDist (p.distribution.getD []) []).isEmpty = true
    · simp [extract_csv_tables_with_samples, hE]
    · intro t ht cv hcv
      simp only [extract_csv_tables_with_samples, hE, Bool.false_eq_true, if_false] at ht
      obtain ⟨kv, hkv, rfl⟩ := List.mem_map.mp ht
      obtain ⟨cv0, hcv0, rfl⟩ := List.mem_map.mp hcv
      exact ⟨sorted_sortStrs _, nodup_sortStrs (List.nodup_dedup _)⟩
  · by_cases hE : (csvScanDist (p.distribution.getD []) []).isEmpty = true
    · intro x
      simp [extract_csv_tables_with_samples, hE]
    · intro x
      simp only [extract_csv_tables_with_samples, hE, Bool.false_eq_true, if_false]
      rw [mem_sortStrs, List.mem_dedup, mem_collectColumns]
  · by_cases hE : (csvScanDist (p.distribution.getD []) []).isEmpty = true
    · simp [extract_csv_tables_with_samples, hE]
    · simp only [extract_csv_tables_with_samples, hE, Bool.false_eq_true, if_false]
      exact sorted_sortStrs _
  · by_cases hE : (csvScanDist (p.distribution.getD []) []).isEmpty = true
    · simp [extract_csv_tables_with_samples, hE]
    · simp only [extract_csv_tables_with_samples, hE, Bool.false_eq_true, if_false]
      exact nodup_sortStrs (List.nodup_dedup _)

/-- Concrete CSV distribution entry for the C4 witness. -/
def c4Entry : DistEntry :=
  { atId := some "tab1", atType := none, name := none, encodingFormat := some "text/csv",
    includes := none, contentUrl := none }

/-- Concrete field adding unsorted duplicate samples for the C4 witness. -/
def c4Field : RSField :=
  { atType := none, name := some "Col A", source := some
      { fileSet := none, fileObject := some { id := some (some "tab1"), extra := false } },
    keywords := .nullv, sample := .listv ["B", "a", "b"] }

/-- Concrete profile for the C4 witness. -/
def c4Profile : DataProfile :=
  { distribution := some [c4Entry], recordSet := some [{ field := some [c4Field] }] }

/-- Concrete non-CSV distribution entry. -/
def c4PdfEntry : DistEntry :=
  { atId := none, atType := none, name := none,
    encodingFormat := some "application/pdf", includes := none, contentUrl := none }

/-- Concrete profile with no matching CSV distribution entry. -/
def c4NoMatch : DataProfile :=
  { distribution := some [c4PdfEntry], recordSet := some [{ field := some [c4Field] }] }

/-- Witness for C4 on concrete profiles. -/
theorem extract_csv_tables_structure_witness :
    containsKey ("tab1") (csvScanDist (c4Profile.distribution.getD []) []) = true ∧
    extract_csv_tables_with_samples c4NoMatch = { tables := [], all_columns := [] } ∧
    (List.Sorted (fun a b : String => strLeB a b = true) ["a", "b"] ∧ (["a", "b"] : List String).Nodup) :=
  ⟨(extract_csv_tables_structure c4Profile).1 c4Entry (by decide) ("tab1") (by decide)
      rfl (by decide),
   (extract_csv_tables_structure c4NoMatch).2.2.1 (by
      rintro d hd ⟨_, i, hid, _⟩
      simp only [c4NoMatch, Option.getD_some] at hd
      have hde := List.mem_singleton.mp hd
      subst hde
      simp [c4PdfEntry] at hid),
   (extract_csv_tables_structure c4Profile).2.2.2.1
      { id := "tab1", name := "tab1", columns := [(("col a"), ["a", "b"])] } (by decide)
      (("col a"), ["a", "b"]) (by decide)⟩

/-- Scenario-1 file set shared by both profiles. -/
def c8Fs : DistEntry :=
  { atId := some "fs1", atType := some "cr:FileSet", name := none,
    encodingFormat := some "text/plain", includes := none, contentUrl := none }

/-- Scenario-1 document field of profile A. -/
def c8DocA : RSField :=
  { atType := some "cr:Document", name := some "Manifest", source := some
      { fileSet := some { id := some (some "fs1"), extra := false }, fileObject := none },
    keywords := .listv ["Intro", "DATA"], sample := .nullv }

/-- Scenario-1 document field of profile B. -/
def c8DocB : RSField :=
  { atType := some "cr:Document", name := some "manifest", source := some
      { fileSet := some { id := some (some "fs1"), extra := false }, fileObject := none },
    keywords := .listv ["data", "extra"], sample := .nullv }

/-- Scenario-1 profile A. -/
def c8ProfileA : DataProfile :=
  { distribution := some [c8Fs], recordSet := some [{ field := some [c8DocA] }] }

/-- Scenario-1 profile B. -/
def c8ProfileB : DataProfile :=
  { distribution := some [c8Fs], recordSet := some [{ field := some [c8DocB] }] }

/-- C8: on the scenario-1 pair, the text comparison finds exactly the
common document name `manifest`, and its per-document overlap record has
`common_keywords == ["data"]`. -/
theorem scenario1_manifest_overlap :
    (compare_txt_files (extract_txt_documents c8ProfileA)
        (extract_txt_documents c8ProfileB)).common_document_names = ["manifest"] ∧
    ((compare_txt_files (extract_txt_documents c8ProfileA)
        (extract_txt_documents c8ProfileB)).per_document_keyword_overlap.map fun r =>
          (r.document_name, r.common_keywords)) = [(("manifest"), ["data"])] := by
  decide

/-- Membership in the sorted set intersection. -/
theorem mem_interAll {x : String} {l1 l2 : List String} :
    x ∈ interAll l1 l2 ↔ x ∈ l1 ∧ x ∈ l2 := by
  rw [interAll, mem_sortStrs, List.mem_dedup, List.mem_filter]
  simp

/-- The sorted set intersection is duplicate-free. -/
theorem nodup_interAll (l1 l2 : List String) : (interAll l1 l2).Nodup :=
  nodup_sortStrs (List.nodup_dedup _)

/-- The sorted set intersection is symmetric in its arguments. -/
theorem interAll_comm (l1 l2 : List String) : interAll l1 l2 = interAll l2 l1 :=
  sorted_nodup_ext (sorted_sortStrs _) (sorted_sortStrs _)
    (nodup_interAll l1 l2) (nodup_interAll l2 l1)
    (fun x => by rw [mem_interAll, mem_interAll, and_comm])

/-- The guarded sorted intersection is symmetric in its arguments. -/
theorem interSorted_comm (l1 l2 : List String) : interSorted l1 l2 = interSorted l2 l1 := by
  unfold interSorted
  rw [Bool.or_comm]
  split
  · rfl
  · exact interAll_comm l1 l2

/-- C7: with both profiles present, the two order-flipped pipeline runs
report the same common name/keyword/column sets and swap the per-side
fields. -/
theorem refine_similarity_symmetry (fstore : String → Option DataProfile)
    (folder_path a b : String) (dpA dpB : DataProfile)
    (hA : fstore (folder_path ++ ("/") ++ a) = some dpA)
    (hB : fstore (folder_path ++ ("/") ++ b) = some dpB) :
    ∃ r1 r2 : RefinementReport,
      refine_similarity fstore folder_path a b = Except.ok r1 ∧
      refine_similarity fstore folder_path b a = Except.ok r2 ∧
      r1.txt_comparison.common_document_names = r2.txt_comparison.common_document_names ∧
      r1.txt_comparison.common_document_keywords = r2.txt_comparison.common_document_keywords ∧
      r1.csv_schema_comparison.common_columns = r2.csv_schema_comparison.common_columns ∧
      r1.txt_comparison.dataset1_document_names = r2.txt_comparison.dataset2_document_names ∧
      r1.txt_comparison.dataset2_document_names = r2.txt_comparison.dataset1_document_names ∧
      r1.txt_comparison.dataset1_document_keywords = r2.txt_comparison.dataset2_document_keywords ∧
      r1.txt_comparison.dataset2_document_keywords = r2.txt_comparison.dataset1_document_keywords ∧
      r1.csv_schema_comparison.dataset1_columns = r2.csv_schema_comparison.dataset2_columns ∧
      r1.csv_schema_comparison.dataset2_columns = r2.csv_schema_comparison.dataset1_columns := by
  refine ⟨refineLoaded a b dpA dpB, refineLoaded b a dpB dpA, ?_, ?_, ?_, ?_, ?_, ?_, ?_, ?_,
    ?_, ?_, ?_⟩
  · simp [refine_similarity, hA, hB]
  · simp [refine_similarity, hA, hB]
  · simp only [refineLoaded, compare_txt_files]
    exact interSorted_comm _ _
  · simp only [refineLoaded, compare_txt_files]
    exact interSorted_comm _ _
  · simp only [refineLoaded, compare_csv_schemas_with_samples]
    exact interSorted_comm _ _
  · rfl
  · rfl
  · rfl
  · rfl
  · rfl
  · rfl

/-- Witness profile for C7. -/
def c7Profile : DataProfile := { distribution := none, recordSet := none }

/-- Witness store for C7: every path resolves to the witness profile. -/
def c7Store : String → Option DataProfile := fun _ => some c7Profile

/-- Witness for C7 at a concrete store and names. -/
theorem refine_similarity_symmetry_witness :
    ∃ r1 r2 : RefinementReport,
      refine_similarity c7Store ("f") ("a.json") ("b.json") = Except.ok r1 ∧
      refine_similarity c7Store ("f") ("b.json") ("a.json") = Except.ok r2 ∧
      r1.txt_comparison.common_document_names = r2.txt_comparison.common_document_names ∧
      r1.txt_comparison.common_document_keywords = r2.txt_comparison.common_document_keywords ∧
      r1.csv_schema_comparison.common_columns = r2.csv_schema_comparison.common_columns ∧
      r1.txt_comparison.dataset1_document_names = r2.txt_comparison.dataset2_document_names ∧
      r1.txt_comparison.dataset2_document_names = r2.txt_comparison.dataset1_document_names ∧
      r1.txt_comparison.dataset1_document_keywords = r2.txt_comparison.dataset2_document_keywords ∧
      r1.txt_comparison.dataset2_document_keywords = r2.txt_comparison.dataset1_document_keywords ∧
      r1.csv_schema_comparison.dataset1_columns = r2.csv_schema_comparison.dataset2_columns ∧
      r1.csv_schema_comparison.dataset2_columns = r2.csv_schema_comparison.dataset1_columns :=
  refine_similarity_symmetry c7Store ("f") ("a.json") ("b.json") c7Profile c7Profile rfl rfl

/-- With no common document names, the per-document overlap list is empty. -/
theorem compare_txt_per_doc_of_no_common (t1 t2 : TextStructure)
    (h : (compare_txt_files t1 t2).common_document_names = []) :
    (compare_txt_files t1 t2).per_document_keyword_overlap = [] := by
  simp only [compare_txt_files] at h ⊢
  rw [h]
  rfl

/-- With no common document names, no per-document record has a keyword
overlap. -/
theorem compare_txt_countP_of_empty (t1 t2 : TextStructure)
    (h : (compare_txt_files t1 t2).common_document_names.isEmpty = true) :
    ((compare_txt_files t1 t2).per_document_keyword_overlap.countP
      fun x => !x.common_keywords.isEmpty) = 0 := by
  rw [compare_txt_per_doc_of_no_common t1 t2 (List.isEmpty_iff.mp h)]
  rfl

/-- A conditional append of one sentence is an append of a conditional
singleton. -/
theorem ite_append_singleton {c : Prop} [Decidable c] (l : List String) (x : String) :
    (if c then l ++ [x] else l) = l ++ (if c then [x] else []) := by
  split <;> simp

/-- Spec-side note synthesis: the two content-type sentences, then the
conditional sentences (a)-(d) in their fixed order, then the fallback
sentence exactly when none of (a)-(d) fired. -/
def specNotes (ct1 ct2 : String) (txt_cmp : TxtComparison) (csv_cmp : CsvComparison) :
    List String :=
  let base := [("Dataset1 content type: ") ++ ct1 ++ ("."),
    ("Dataset2 content type: ") ++ ct2 ++ (".")]
  let sa := if !txt_cmp.common_document_names.isEmpty then
    [("TXT: found ") ++ toString txt_cmp.common_document_names.length ++
      (" common document names.")] else []
  let sb := if !txt_cmp.common_document_keywords.isEmpty then
    [("TXT: found ") ++ toString txt_cmp.common_document_keywords.length ++
      (" common document keywords.")] else []
  let nOv := txt_cmp.per_document_keyword_overlap.countP fun x => !x.common_keywords.isEmpty
  let sc := if nOv > 0 then
    [("TXT: keyword overlap detected for ") ++ toString nOv ++
      (" common-named documents.")] else []
  let sd := if !csv_cmp.common_columns.isEmpty then
    [("CSV: found ") ++ toString csv_cmp.common_columns.length ++
      (" common column names.")] else []
  let sf := if sa.isEmpty && sb.isEmpty && sc.isEmpty && sd.isEmpty then
    [("No clear structural similarity found (TXT or CSV).")] else []
  base ++ sa ++ sb ++ sc ++ sd ++ sf

/-- C3: with both profiles loaded, the synthesized note is the space-join
of the two content-type sentences, the conditional sentences (a)-(d) in
their fixed order, and the fallback sentence exactly when none of (a)-(d)
fired. -/
theorem refine_similarity_note_synthesis (fstore : String → Option DataProfile)
    (folder_path n1 n2 : String) (dp1 dp2 : DataProfile)
    (h1 : fstore (folder_path ++ ("/") ++ n1) = some dp1)
    (h2 : fstore (folder_path ++ ("/") ++ n2) = some dp2) :
    ∃ r : RefinementReport, refine_similarity fstore folder_path n1 n2 = Except.ok r ∧
      r.note = joinSpace (specNotes (infer_content_type dp1) (infer_content_type dp2)
        (compare_txt_files (extract_txt_documents dp1) (extract_txt_documents dp2))
        (compare_csv_schemas_with_samples (extract_csv_tables_with_samples dp1)
          (extract_csv_tables_with_samples dp2))) := by
  refine ⟨refineLoaded n1 n2 dp1 dp2, by simp [refine_similarity, h1, h2], ?_⟩
  simp only [refineLoaded, specNotes]
  congr 1
  cases ha : (compare_txt_files (extract_txt_documents dp1)
      (extract_txt_documents dp2)).common_document_names.isEmpty <;>
    cases hb : (compare_txt_files (extract_txt_documents dp1)
        (extract_txt_documents dp2)).common_document_keywords.isEmpty <;>
      cases hd : (compare_csv_schemas_with_samples (extract_csv_tables_with_samples dp1)
          (extract_csv_tables_with_samples dp2)).common_columns.isEmpty <;>
        (simp [ha, hb, hd, ite_append_singleton, List.append_assoc,
          compare_txt_countP_of_empty]
         try (split <;> simp))

/-- Witness profile for C3. -/
def c3Profile : DataProfile := { distribution := none, recordSet := none }

/-- Witness store for C3. -/
def c3Store : String → Option DataProfile := fun _ => some c3Profile

/-- Witness for C3 at a concrete store and names. -/
theorem refine_similarity_note_synthesis_witness :
    ∃ r : RefinementReport,
      refine_similarity c3Store ("f") ("a.json") ("b.json") = Except.ok r ∧
      r.note = joinSpace (specNotes (infer_content_type c3Profile)
        (infer_content_type c3Profile)
        (compare_txt_files (extract_txt_documents c3Profile)
          (extract_txt_documents c3Profile))
        (compare_csv_schemas_with_samples (extract_csv_tables_with_samples c3Profile)
          (extract_csv_tables_with_samples c3Profile))) :=
  refine_similarity_note_synthesis c3Store ("f") ("a.json") ("b.json") c3Profile c3Profile
    rfl rfl
